import Mathlib

/-!
Verification of the Utama-Core heuristic velocity controller
(`OmniMPC::get_control_velocities` in
`src/utama_core/motion_planning/src/mpc_cpp/src/OmniMPC.cpp`).

The C++ routine computes, over IEEE doubles, a commanded 2-D velocity from
the robot state, a goal position and an obstacle list.  We embed the routine
shallowly over the real numbers: every `double` becomes an `ℝ`, Eigen's
2-vectors become `Vec2`, `norm` is the Euclidean norm via `Real.sqrt`, and
Eigen's `normalized()` divides by the norm (Lean's total division makes the
zero-vector case well defined; the C++ guards keep the code away from that
case on the paths we reason about).  The `isinf`/`isnan` tests of the force
clamp have no analogue over `ℝ` — every real is finite — so the clamp is
modelled by its remaining live test `force_mag > max_allowed_force`;
finiteness claims are discharged by the totality of the real-valued model.
The unchecked `obs[0] … obs[4]` vector accesses of the C++ are modelled with
`Option`-returning list indexing in `parse_obstacle`, so an out-of-bounds
access is a visible `none` rather than undefined behaviour.
-/

namespace UtamaMPC

/-- Configuration record, mirroring `MPCConfig` in `OmniMPC.hpp` field for
field (`T` is an `int` there, the rest are `double`s). -/
structure MPCConfig where
  T : Int
  DT : ℝ
  max_vel : ℝ
  max_accel : ℝ
  Q_pos : ℝ
  Q_vel : ℝ
  R_accel : ℝ
  Q_slack : ℝ
  robot_radius : ℝ
  obstacle_buffer_ratio : ℝ
  safety_vel_coeff : ℝ

/-- Default tuning from the initializers in `OmniMPC.hpp`. -/
def MPCConfig.default : MPCConfig :=
  { T := 5, DT := 0.05, max_vel := 2.0, max_accel := 3.0, Q_pos := 200.0,
    Q_vel := 20.0, R_accel := 0.5, Q_slack := 5000000.0, robot_radius := 0.09,
    obstacle_buffer_ratio := 1.25, safety_vel_coeff := 0.15 }

/-- Planar vector, standing in for `Eigen::Vector2d`. -/
structure Vec2 where
  x : ℝ
  y : ℝ

def Vec2.zero : Vec2 := ⟨0, 0⟩

def Vec2.add (a b : Vec2) : Vec2 := ⟨a.x + b.x, a.y + b.y⟩

def Vec2.sub (a b : Vec2) : Vec2 := ⟨a.x - b.x, a.y - b.y⟩

def Vec2.smul (c : ℝ) (v : Vec2) : Vec2 := ⟨c * v.x, c * v.y⟩

/-- Euclidean norm, Eigen's `.norm()`. -/
noncomputable def Vec2.norm (v : Vec2) : ℝ := Real.sqrt (v.x ^ 2 + v.y ^ 2)

/-- Eigen's `.normalized()`: the vector divided by its norm. -/
noncomputable def Vec2.normalized (v : Vec2) : Vec2 := Vec2.smul (1 / v.norm) v

/-- The robot state, `Eigen::Vector4d current_state` — position then
velocity. -/
structure RobotState where
  px : ℝ
  py : ℝ
  vx : ℝ
  vy : ℝ

/-- `current_state.head<2>()`, the position part. -/
def RobotState.head2 (s : RobotState) : Vec2 := ⟨s.px, s.py⟩

/-- `current_state.tail<2>()`, the velocity part. -/
def RobotState.tail2 (s : RobotState) : Vec2 := ⟨s.vx, s.vy⟩

/-- One parsed obstacle entry: position, velocity, radius
(`obs[0] … obs[4]`). -/
structure Obstacle where
  px : ℝ
  py : ℝ
  vx : ℝ
  vy : ℝ
  radius : ℝ

/-- `obs_pos + obs_vel * 0.1`, the 0.1-second linear extrapolation. -/
def obs_future (o : Obstacle) : Vec2 :=
  Vec2.add ⟨o.px, o.py⟩ (Vec2.smul 0.1 ⟨o.vx, o.vy⟩)

/-- `dist` before the degeneracy guard: distance from the robot position to
the extrapolated obstacle position. -/
noncomputable def obs_dist_raw (robotPos : Vec2) (o : Obstacle) : ℝ :=
  (robotPos.sub (obs_future o)).norm

/-- `dist` after the guard `if (dist < 1e-5) dist = 1e-5`. -/
noncomputable def obs_dist (robotPos : Vec2) (o : Obstacle) : ℝ :=
  if obs_dist_raw robotPos o < 1e-5 then 1e-5 else obs_dist_raw robotPos o

/-- `diff` after the guard `if (dist < 1e-5) diff << 1.0, 0.0`. -/
noncomputable def obs_diff (robotPos : Vec2) (o : Obstacle) : Vec2 :=
  if obs_dist_raw robotPos o < 1e-5 then ⟨1.0, 0.0⟩
  else robotPos.sub (obs_future o)

/-- `safety = robot_radius * obstacle_buffer_ratio + radius` followed by
`safety += current_speed * safety_vel_coeff`. -/
noncomputable def safety_dist (config : MPCConfig) (current_speed : ℝ)
    (o : Obstacle) : ℝ :=
  config.robot_radius * MPCConfig.obstacle_buffer_ratio config + o.radius +
    current_speed * config.safety_vel_coeff

/-- `violation = std::max(0.0, safety * 1.2 - dist)`. -/
noncomputable def obs_violation (config : MPCConfig) (robotPos : Vec2)
    (current_speed : ℝ) (o : Obstacle) : ℝ :=
  max 0.0 (safety_dist config current_speed o * 1.2 - obs_dist robotPos o)

/-- `force_mag = 50.0 * std::exp(violation * 10.0)` before the clamp. -/
noncomputable def force_mag_raw (config : MPCConfig) (robotPos : Vec2)
    (current_speed : ℝ) (o : Obstacle) : ℝ :=
  50.0 * Real.exp (obs_violation config robotPos current_speed o * 10.0)

/-- The force after the clamp against `max_allowed_force = max_accel * 2.0`.
Over `ℝ` the `isinf`/`isnan` disjuncts of the C++ condition are vacuous, so
only the comparison `force_mag > max_allowed_force` remains. -/
noncomputable def force_clamped (config : MPCConfig) (robotPos : Vec2)
    (current_speed : ℝ) (o : Obstacle) : ℝ :=
  if force_mag_raw config robotPos current_speed o > config.max_accel * 2.0
  then config.max_accel * 2.0
  else force_mag_raw config robotPos current_speed o

/-- The repulsion contribution of one obstacle: inside the warning radius
(`dist < safety * 1.2`) it is `diff.normalized() * force_mag`, otherwise
nothing is added. -/
noncomputable def obstacleRepulsion (config : MPCConfig) (robotPos : Vec2)
    (current_speed : ℝ) (o : Obstacle) : Vec2 :=
  if obs_dist robotPos o < safety_dist config current_speed o * 1.2 then
    Vec2.smul (force_clamped config robotPos current_speed o)
      (obs_diff robotPos o).normalized
  else Vec2.zero

/-- `dist_to_goal = (goal_pos - current_state.head<2>()).norm()`. -/
noncomputable def dist_to_goal (current_state : RobotState)
    (goal_pos : Vec2) : ℝ :=
  (goal_pos.sub current_state.head2).norm

/-- Step 2 of the routine: the reference velocity.  The code computes
`is_arriving = dist_to_goal < 0.40` and zeroes the reference when
`is_arriving || dist_to_goal < 0.15`, otherwise takes the goal bearing
scaled by `max_vel`. -/
noncomputable def ref_vel (config : MPCConfig) (current_state : RobotState)
    (goal_pos : Vec2) : Vec2 :=
  if dist_to_goal current_state goal_pos < 0.40 ∨
      dist_to_goal current_state goal_pos < 0.15 then Vec2.zero
  else Vec2.smul config.max_vel (goal_pos.sub current_state.head2).normalized

/-- Step 3: `acc = (ref_vel - current velocity) * gain`, with gain 2.0 when
arriving and 4.0 otherwise. -/
noncomputable def tracking_acc (config : MPCConfig)
    (current_state : RobotState) (goal_pos : Vec2) : Vec2 :=
  Vec2.smul (if dist_to_goal current_state goal_pos < 0.40 then 2.0 else 4.0)
    ((ref_vel config current_state goal_pos).sub current_state.tail2)

/-- Step 4: the repulsion accumulator, summed over the obstacle list in
order. -/
noncomputable def repulsion_sum (config : MPCConfig)
    (current_state : RobotState) (obstacles : List Obstacle) : Vec2 :=
  obstacles.foldl
    (fun acc o =>
      acc.add
        (obstacleRepulsion config current_state.head2
          current_state.tail2.norm o))
    Vec2.zero

/-- Step 5: `acc += repulsion`. -/
noncomputable def total_acc (config : MPCConfig) (current_state : RobotState)
    (goal_pos : Vec2) (obstacles : List Obstacle) : Vec2 :=
  (tracking_acc config current_state goal_pos).add
    (repulsion_sum config current_state obstacles)

/-- Step 6, the acceleration clamp: rescale to magnitude `max_accel` when
the norm exceeds it. -/
noncomputable def clamped_acc (config : MPCConfig) (current_state : RobotState)
    (goal_pos : Vec2) (obstacles : List Obstacle) : Vec2 :=
  if (total_acc config current_state goal_pos obstacles).norm >
      config.max_accel then
    Vec2.smul config.max_accel
      (total_acc config current_state goal_pos obstacles).normalized
  else total_acc config current_state goal_pos obstacles

/-- Step 7, integration: `next_vel = current velocity + acc * dt`. -/
noncomputable def next_vel (config : MPCConfig) (current_state : RobotState)
    (goal_pos : Vec2) (obstacles : List Obstacle) : Vec2 :=
  current_state.tail2.add
    (Vec2.smul config.DT (clamped_acc config current_state goal_pos obstacles))

/-- Step 8, the velocity clamp: rescale to magnitude `max_vel` when the norm
exceeds it. -/
noncomputable def commanded_vel (config : MPCConfig)
    (current_state : RobotState) (goal_pos : Vec2)
    (obstacles : List Obstacle) : Vec2 :=
  if (next_vel config current_state goal_pos obstacles).norm >
      config.max_vel then
    Vec2.smul config.max_vel
      (next_vel config current_state goal_pos obstacles).normalized
  else next_vel config current_state goal_pos obstacles

/-- The full routine: `{next_vel.x(), next_vel.y(), true}`. -/
noncomputable def get_control_velocities (config : MPCConfig)
    (current_state : RobotState) (goal_pos : Vec2)
    (obstacles : List Obstacle) : ℝ × ℝ × Bool :=
  ((commanded_vel config current_state goal_pos obstacles).x,
   (commanded_vel config current_state goal_pos obstacles).y, true)

/-- The raw interface of the C++ routine takes
`std::vector<std::vector<double>>` and reads `obs[0] … obs[4]` without any
length check; the `Option`-returning indexing makes each access explicit. -/
def parse_obstacle (o : List ℝ) : Option Obstacle := do
  let px ← o[0]?
  let py ← o[1]?
  let vx ← o[2]?
  let vy ← o[3]?
  let radius ← o[4]?
  pure ⟨px, py, vx, vy, radius⟩

def parse_obstacles (l : List (List ℝ)) : Option (List Obstacle) :=
  l.mapM parse_obstacle

/-- The routine at the unparsed interface: `none` marks the out-of-bounds
access that is undefined behaviour in the C++. -/
noncomputable def get_control_velocities_raw (config : MPCConfig)
    (current_state : RobotState) (goal_pos : Vec2)
    (obstacles : List (List ℝ)) : Option (ℝ × ℝ × Bool) :=
  (parse_obstacles obstacles).map (get_control_velocities config current_state goal_pos)

/-! Basic facts about the `Vec2` norm. -/

lemma Vec2.norm_nonneg (v : Vec2) : 0 ≤ v.norm := Real.sqrt_nonneg _

lemma Vec2.norm_smul (c : ℝ) (v : Vec2) :
    (Vec2.smul c v).norm = |c| * v.norm := by
  unfold Vec2.norm Vec2.smul
  rw [show (c * v.x) ^ 2 + (c * v.y) ^ 2 = c ^ 2 * (v.x ^ 2 + v.y ^ 2) by ring,
    Real.sqrt_mul (sq_nonneg c), Real.sqrt_sq_eq_abs]

lemma Vec2.norm_zero_vec : Vec2.norm ⟨0, 0⟩ = 0 := by
  unfold Vec2.norm
  norm_num

lemma Vec2.norm_one_zero : Vec2.norm ⟨1.0, 0.0⟩ = 1 := by
  unfold Vec2.norm
  norm_num

lemma Vec2.norm_normalized (v : Vec2) (h : 0 < v.norm) :
    v.normalized.norm = 1 := by
  unfold Vec2.normalized
  rw [Vec2.norm_smul, abs_of_pos (by positivity), one_div,
    inv_mul_cancel₀ (ne_of_gt h)]

lemma Vec2.smul_smul (a b : ℝ) (v : Vec2) :
    Vec2.smul a (Vec2.smul b v) = Vec2.smul (a * b) v := by
  unfold Vec2.smul
  simp [mul_assoc]

lemma Vec2.smul_zero_vec (c : ℝ) : Vec2.smul c ⟨0, 0⟩ = ⟨0, 0⟩ := by
  unfold Vec2.smul
  simp

/-- The norm of Eigen-style `v.normalized() * m` is exactly `m` when the
vector is nonzero and `m` nonnegative. -/
lemma norm_smul_normalized {m : ℝ} (hm : 0 ≤ m) (v : Vec2)
    (hv : 0 < v.norm) : (Vec2.smul m v.normalized).norm = m := by
  rw [Vec2.norm_smul, Vec2.norm_normalized v hv, mul_one, abs_of_nonneg hm]

/-- The shared shape of the acceleration and velocity clamps: the result
never exceeds the bound `m`. -/
lemma norm_clamp_le {m : ℝ} (hm : 0 ≤ m) (v : Vec2) :
    (if v.norm > m then Vec2.smul m v.normalized else v).norm ≤ m := by
  split
  · next h => exact le_of_eq (norm_smul_normalized hm v (lt_of_le_of_lt hm h))
  · next h => exact le_of_not_lt h

/-- The guarded displacement is never the zero vector: the guard substitutes
`(1, 0)` whenever the raw distance drops below `1e-5`. -/
lemma obs_diff_norm_pos (robotPos : Vec2) (o : Obstacle) :
    0 < (obs_diff robotPos o).norm := by
  unfold obs_diff
  split
  · next h =>
      rw [Vec2.norm_one_zero]
      norm_num
  · next h =>
      have h5 : (1e-5 : ℝ) ≤ obs_dist_raw robotPos o := le_of_not_lt h
      unfold obs_dist_raw at h5
      have : (0 : ℝ) < 1e-5 := by norm_num
      linarith

/-! Claim theorems. -/

/-- Claim C6: for every input the third component of the returned tuple is
`true`; the routine never reports infeasibility. -/
theorem C6_feasible_always_true (config : MPCConfig)
    (current_state : RobotState) (goal_pos : Vec2)
    (obstacles : List Obstacle) :
    (get_control_velocities config current_state goal_pos obstacles).2.2 =
      true := rfl

/-- Claim C1: with a positive `max_vel`, the returned velocity has Euclidean
magnitude at most `max_vel`; when the integrated next velocity does not
exceed `max_vel` in norm it is returned unchanged, and when it does the
result has magnitude exactly `max_vel` and is a positive rescaling of the
integrated velocity (direction preserved). -/
theorem C1_velocity_clamp (config : MPCConfig) (s : RobotState) (g : Vec2)
    (obs : List Obstacle) (hv : 0 < config.max_vel) :
    Real.sqrt ((get_control_velocities config s g obs).1 ^ 2 +
        (get_control_velocities config s g obs).2.1 ^ 2) ≤ config.max_vel ∧
    ((next_vel config s g obs).norm ≤ config.max_vel →
      commanded_vel config s g obs = next_vel config s g obs) ∧
    (config.max_vel < (next_vel config s g obs).norm →
      (commanded_vel config s g obs).norm = config.max_vel ∧
      ∃ t, 0 < t ∧ commanded_vel config s g obs =
        Vec2.smul t (next_vel config s g obs)) := by
  refine ⟨?_, ?_, ?_⟩
  · show (commanded_vel config s g obs).norm ≤ config.max_vel
    unfold commanded_vel
    exact norm_clamp_le (le_of_lt hv) _
  · intro h
    unfold commanded_vel
    rw [if_neg (not_lt_of_le h)]
  · intro h
    unfold commanded_vel
    rw [if_pos h]
    refine ⟨norm_smul_normalized (le_of_lt hv) _ (lt_trans hv h), ?_⟩
    refine ⟨config.max_vel * (1 / (next_vel config s g obs).norm), ?_, ?_⟩
    · have hn : 0 < (next_vel config s g obs).norm := lt_trans hv h
      positivity
    · unfold Vec2.normalized
      rw [Vec2.smul_smul]

/-- Witness for C1 at the default configuration with the robot at rest at
the goal and no obstacles. -/
theorem C1_velocity_clamp_witness :
    Real.sqrt
        ((get_control_velocities MPCConfig.default ⟨0, 0, 0, 0⟩ ⟨0, 0⟩
            []).1 ^ 2 +
          (get_control_velocities MPCConfig.default ⟨0, 0, 0, 0⟩ ⟨0, 0⟩
            []).2.1 ^ 2) ≤ MPCConfig.default.max_vel :=
  (C1_velocity_clamp MPCConfig.default ⟨0, 0, 0, 0⟩ ⟨0, 0⟩ []
    (by norm_num [MPCConfig.default])).1

/-- Claim C4: with a positive `max_accel`, the combined acceleration after
the clamp has norm at most `max_accel`; below the bound it is unchanged,
above it it is rescaled to magnitude exactly `max_accel` with direction
preserved; and for nonzero `DT` the acceleration reconstructed from the
pre-clamp output velocity, `(next_vel - current velocity) / DT`, is exactly
the clamped acceleration. -/
theorem C4_acceleration_clamp (config : MPCConfig) (s : RobotState)
    (g : Vec2) (obs : List Obstacle) (ha : 0 < config.max_accel) :
    (clamped_acc config s g obs).norm ≤ config.max_accel ∧
    ((total_acc config s g obs).norm ≤ config.max_accel →
      clamped_acc config s g obs = total_acc config s g obs) ∧
    (config.max_accel < (total_acc config s g obs).norm →
      (clamped_acc config s g obs).norm = config.max_accel ∧
      ∃ t, 0 < t ∧ clamped_acc config s g obs =
        Vec2.smul t (total_acc config s g obs)) ∧
    (config.DT ≠ 0 →
      Vec2.smul (1 / config.DT) ((next_vel config s g obs).sub s.tail2) =
        clamped_acc config s g obs) := by
  refine ⟨?_, ?_, ?_, ?_⟩
  · unfold clamped_acc
    exact norm_clamp_le (le_of_lt ha) _
  · intro h
    unfold clamped_acc
    rw [if_neg (not_lt_of_le h)]
  · intro h
    unfold clamped_acc
    rw [if_pos h]
    refine ⟨norm_smul_normalized (le_of_lt ha) _ (lt_trans ha h), ?_⟩
    refine ⟨config.max_accel * (1 / (total_acc config s g obs).norm), ?_, ?_⟩
    · have hn : 0 < (total_acc config s g obs).norm := lt_trans ha h
      positivity
    · unfold Vec2.normalized
      rw [Vec2.smul_smul]
  · intro hdt
    unfold next_vel
    have hsub :
        (s.tail2.add
            (Vec2.smul config.DT (clamped_acc config s g obs))).sub
          s.tail2 = Vec2.smul config.DT (clamped_acc config s g obs) := by
      unfold Vec2.add Vec2.sub
      simp
    rw [hsub, Vec2.smul_smul, one_div, inv_mul_cancel₀ hdt]
    unfold Vec2.smul
    simp

/-- Witness for C4 at the default configuration. -/
theorem C4_acceleration_clamp_witness :
    (clamped_acc MPCConfig.default ⟨0, 0, 0, 0⟩ ⟨0, 0⟩ []).norm ≤
      MPCConfig.default.max_accel :=
  (C4_acceleration_clamp MPCConfig.default ⟨0, 0, 0, 0⟩ ⟨0, 0⟩ []
    (by norm_num [MPCConfig.default])).1

/-- Claim C3: with a nonnegative `max_accel`, the clamped force never
exceeds `max_accel * 2.0`, and the repulsion vector contributed by any one
obstacle has norm at most `max_accel * 2.0`. -/
theorem C3_force_bounded (config : MPCConfig) (robotPos : Vec2)
    (current_speed : ℝ) (o : Obstacle) (ha : 0 ≤ config.max_accel) :
    force_clamped config robotPos current_speed o ≤
      config.max_accel * 2.0 ∧
    (obstacleRepulsion config robotPos current_speed o).norm ≤
      config.max_accel * 2.0 := by
  have hcap : (0 : ℝ) ≤ config.max_accel * 2.0 := by linarith
  have hf : force_clamped config robotPos current_speed o ≤
      config.max_accel * 2.0 := by
    unfold force_clamped
    split
    · exact le_refl _
    · next h => exact le_of_not_lt h
  have hfpos : 0 ≤ force_clamped config robotPos current_speed o := by
    unfold force_clamped
    split
    · exact hcap
    · unfold force_mag_raw
      positivity
  refine ⟨hf, ?_⟩
  unfold obstacleRepulsion
  split
  · rw [Vec2.norm_smul, Vec2.norm_normalized _ (obs_diff_norm_pos _ _),
      mul_one, abs_of_nonneg hfpos]
    exact hf
  · unfold Vec2.zero
    rw [Vec2.norm_zero_vec]
    exact hcap

/-- Witness for C3: default configuration, an obstacle sitting exactly on
the robot. -/
theorem C3_force_bounded_witness :
    force_clamped MPCConfig.default ⟨0, 0⟩ 0 ⟨0, 0, 0, 0, 0.1⟩ ≤
      MPCConfig.default.max_accel * 2.0 ∧
    (obstacleRepulsion MPCConfig.default ⟨0, 0⟩ 0 ⟨0, 0, 0, 0, 0.1⟩).norm ≤
      MPCConfig.default.max_accel * 2.0 :=
  C3_force_bounded MPCConfig.default ⟨0, 0⟩ 0 ⟨0, 0, 0, 0, 0.1⟩
    (by norm_num [MPCConfig.default])

/-- Claim C5: whenever the goal distance is below 0.40 (hence in particular
below 0.15) the reference velocity is exactly zero, and for goal distance
at least 0.40 it is the unit goal-bearing vector scaled by `max_vel`. -/
theorem C5_reference_velocity (config : MPCConfig) (s : RobotState)
    (g : Vec2) :
    (dist_to_goal s g < 0.40 → ref_vel config s g = Vec2.zero) ∧
    (0.40 ≤ dist_to_goal s g →
      ref_vel config s g =
        Vec2.smul config.max_vel (g.sub s.head2).normalized) := by
  constructor
  · intro h
    unfold ref_vel
    rw [if_pos (Or.inl h)]
  · intro h
    unfold ref_vel
    rw [if_neg]
    rintro (h1 | h2) <;> linarith

/-- Witness for C5 with the robot exactly at the goal. -/
theorem C5_reference_velocity_witness :
    ref_vel MPCConfig.default ⟨0, 0, 0, 0⟩ ⟨0, 0⟩ = Vec2.zero :=
  (C5_reference_velocity MPCConfig.default ⟨0, 0, 0, 0⟩ ⟨0, 0⟩).1
    (by norm_num [dist_to_goal, Vec2.sub, Vec2.norm, RobotState.head2,
      Real.sqrt_zero])

/-- Claim C2: when some obstacle's extrapolated position lies within
distance `1e-5` of the robot position, the guard pins the distance to
`1e-5` and the displacement to the unit vector `(1, 0)`, and (with a
positive `max_vel`) the returned velocity — a well-defined real vector, so
free of NaN and infinity in this model — stays within the velocity limit. -/
theorem C2_degeneracy_guard (config : MPCConfig) (s : RobotState) (g : Vec2)
    (obstacles : List Obstacle) (o : Obstacle) (_hmem : o ∈ obstacles)
    (h : obs_dist_raw s.head2 o < 1e-5) (hv : 0 < config.max_vel) :
    obs_dist s.head2 o = 1e-5 ∧
    obs_diff s.head2 o = ⟨1.0, 0.0⟩ ∧
    Real.sqrt ((get_control_velocities config s g obstacles).1 ^ 2 +
        (get_control_velocities config s g obstacles).2.1 ^ 2) ≤
      config.max_vel := by
  refine ⟨?_, ?_, ?_⟩
  · unfold obs_dist
    rw [if_pos h]
  · unfold obs_diff
    rw [if_pos h]
  · show (commanded_vel config s g obstacles).norm ≤ config.max_vel
    unfold commanded_vel
    exact norm_clamp_le (le_of_lt hv) _

/-- Witness for C2: the obstacle sits exactly on the robot. -/
theorem C2_degeneracy_guard_witness :
    obs_dist (RobotState.head2 ⟨0, 0, 0, 0⟩) ⟨0, 0, 0, 0, 0.1⟩ = 1e-5 ∧
    obs_diff (RobotState.head2 ⟨0, 0, 0, 0⟩) ⟨0, 0, 0, 0, 0.1⟩ =
      ⟨1.0, 0.0⟩ ∧
    Real.sqrt
        ((get_control_velocities MPCConfig.default ⟨0, 0, 0, 0⟩ ⟨0, 0⟩
            [⟨0, 0, 0, 0, 0.1⟩]).1 ^ 2 +
          (get_control_velocities MPCConfig.default ⟨0, 0, 0, 0⟩ ⟨0, 0⟩
            [⟨0, 0, 0, 0, 0.1⟩]).2.1 ^ 2) ≤ MPCConfig.default.max_vel :=
  C2_degeneracy_guard MPCConfig.default ⟨0, 0, 0, 0⟩ ⟨0, 0⟩
    [⟨0, 0, 0, 0, 0.1⟩] ⟨0, 0, 0, 0, 0.1⟩ (List.mem_singleton.mpr rfl)
    (by norm_num [obs_dist_raw, obs_future, Vec2.sub, Vec2.add, Vec2.smul,
      Vec2.norm, RobotState.head2, Real.sqrt_zero])
    (by norm_num [MPCConfig.default])

/-- Claim C7: for every configuration and every goal position, a robot at
rest exactly at the goal with no obstacles gets the command `(0, 0, true)`:
rest at the goal is a fixed point of the control law.  The spec's example
`state = (1, 0, 0, 0)`, `goal = (1, 0)` is the instance `px = 1`,
`py = 0`. -/
theorem C7_rest_at_goal (config : MPCConfig) (px py : ℝ) :
    get_control_velocities config ⟨px, py, 0, 0⟩ ⟨px, py⟩ [] =
      (0, 0, true) := by
  have hd : dist_to_goal ⟨px, py, 0, 0⟩ ⟨px, py⟩ = 0 := by
    norm_num [dist_to_goal, Vec2.sub, Vec2.norm, RobotState.head2,
      Real.sqrt_zero]
  have href : ref_vel config ⟨px, py, 0, 0⟩ ⟨px, py⟩ = Vec2.zero := by
    unfold ref_vel
    rw [hd]
    norm_num
  have htr : tracking_acc config ⟨px, py, 0, 0⟩ ⟨px, py⟩ = ⟨0, 0⟩ := by
    unfold tracking_acc
    rw [href, hd]
    norm_num [Vec2.smul, Vec2.sub, Vec2.zero, RobotState.tail2]
  have htot : total_acc config ⟨px, py, 0, 0⟩ ⟨px, py⟩ [] = ⟨0, 0⟩ := by
    unfold total_acc repulsion_sum
    rw [htr]
    norm_num [List.foldl_nil, Vec2.add, Vec2.zero]
  have hacc : clamped_acc config ⟨px, py, 0, 0⟩ ⟨px, py⟩ [] = ⟨0, 0⟩ := by
    unfold clamped_acc
    rw [htot]
    split
    · norm_num [Vec2.smul, Vec2.normalized]
    · rfl
  have hnext : next_vel config ⟨px, py, 0, 0⟩ ⟨px, py⟩ [] = ⟨0, 0⟩ := by
    unfold next_vel
    rw [hacc]
    norm_num [Vec2.add, Vec2.smul, RobotState.tail2]
  have hcmd : commanded_vel config ⟨px, py, 0, 0⟩ ⟨px, py⟩ [] = ⟨0, 0⟩ := by
    unfold commanded_vel
    rw [hnext]
    split
    · norm_num [Vec2.smul, Vec2.normalized]
    · rfl
  unfold get_control_velocities
  rw [hcmd]

/-- Claim C8: two configurations agreeing on `DT`, `max_vel`, `max_accel`,
`robot_radius`, the buffer ratio and `safety_vel_coeff` produce identical
output on every input — the reserved fields `T`, `Q_pos`, `Q_vel`,
`R_accel`, `Q_slack` have no effect. -/
theorem C8_reserved_fields_no_effect (c1 c2 : MPCConfig)
    (hDT : c1.DT = c2.DT) (hmv : c1.max_vel = c2.max_vel)
    (hma : c1.max_accel = c2.max_accel)
    (hrr : c1.robot_radius = c2.robot_radius)
    (hob : MPCConfig.obstacle_buffer_ratio c1 =
      MPCConfig.obstacle_buffer_ratio c2)
    (hsv : c1.safety_vel_coeff = c2.safety_vel_coeff)
    (s : RobotState) (g : Vec2) (obs : List Obstacle) :
    get_control_velocities c1 s g obs =
      get_control_velocities c2 s g obs := by
  simp only [get_control_velocities, commanded_vel, next_vel, clamped_acc,
    total_acc, tracking_acc, ref_vel, dist_to_goal, repulsion_sum,
    obstacleRepulsion, force_clamped, force_mag_raw, obs_violation,
    safety_dist, obs_dist, obs_dist_raw, obs_diff, obs_future,
    hDT, hmv, hma, hrr, hob, hsv]

/-- Witness for C8: the default configuration against a copy with all five
reserved fields changed. -/
theorem C8_reserved_fields_no_effect_witness :
    get_control_velocities MPCConfig.default ⟨0, 0, 0, 0⟩ ⟨0, 0⟩ [] =
      get_control_velocities
        { MPCConfig.default with
            T := 7, Q_pos := 1, Q_vel := 2, R_accel := 3, Q_slack := 4 }
        ⟨0, 0, 0, 0⟩ ⟨0, 0⟩ [] :=
  C8_reserved_fields_no_effect _ _ rfl rfl rfl rfl rfl rfl _ _ _

/-- Every index access of `parse_obstacle` succeeds on an entry of length
at least five. -/
lemma parse_obstacle_isSome :
    ∀ o : List ℝ, 5 ≤ o.length → (parse_obstacle o).isSome := by
  intro o h
  unfold parse_obstacle
  rw [List.getElem?_eq_getElem (show 0 < o.length by omega),
    List.getElem?_eq_getElem (show 1 < o.length by omega),
    List.getElem?_eq_getElem (show 2 < o.length by omega),
    List.getElem?_eq_getElem (show 3 < o.length by omega),
    List.getElem?_eq_getElem (show 4 < o.length by omega)]
  rfl

lemma parse_obstacles_isSome :
    ∀ l : List (List ℝ), (∀ o ∈ l, 5 ≤ o.length) →
      (parse_obstacles l).isSome := by
  intro l
  unfold parse_obstacles
  induction l with
  | nil =>
      intro h
      rfl
  | cons a t ih =>
      intro h
      obtain ⟨b, hb⟩ := Option.isSome_iff_exists.mp
        (parse_obstacle_isSome a (h a (List.mem_cons_self a t)))
      obtain ⟨bs, hbs⟩ := Option.isSome_iff_exists.mp
        (ih fun o ho => h o (List.mem_cons_of_mem a ho))
      rw [List.mapM_cons, hb, hbs]
      rfl

/-- Claim C9: under the unstated interface precondition that every obstacle
entry has at least five elements, every `obs[0] … obs[4]` access is in
bounds: the `Option`-returning embedding of the raw interface never hits
its error branch. -/
theorem C9_index_safety (config : MPCConfig) (s : RobotState) (g : Vec2)
    (obstacles : List (List ℝ)) (h : ∀ o ∈ obstacles, 5 ≤ o.length) :
    (get_control_velocities_raw config s g obstacles).isSome := by
  obtain ⟨v, hv⟩ := Option.isSome_iff_exists.mp
    (parse_obstacles_isSome obstacles h)
  unfold get_control_velocities_raw
  rw [hv]
  rfl

/-- Witness for C9 on a single five-element obstacle entry. -/
theorem C9_index_safety_witness :
    (get_control_velocities_raw MPCConfig.default ⟨0, 0, 0, 0⟩ ⟨0, 0⟩
      [[1, 2, 3, 4, 5]]).isSome :=
  C9_index_safety MPCConfig.default ⟨0, 0, 0, 0⟩ ⟨0, 0⟩ [[1, 2, 3, 4, 5]]
    (by
      intro o ho
      rw [List.mem_singleton] at ho
      subst ho
      simp)

/-- Claim C10: whenever the repulsion branch fires and
`0 < max_accel * 2.0 ≤ 50`, the clamp saturates: the raw exponential force
is at least `50`, so the contributed force magnitude is exactly
`max_accel * 2.0` regardless of the penetration amount. -/
theorem C10_force_saturated (config : MPCConfig) (robotPos : Vec2)
    (current_speed : ℝ) (o : Obstacle)
    (hbranch : obs_dist robotPos o <
      safety_dist config current_speed o * 1.2)
    (h1 : 0 < config.max_accel) (h2 : config.max_accel * 2.0 ≤ 50) :
    force_clamped config robotPos current_speed o =
      config.max_accel * 2.0 ∧
    (obstacleRepulsion config robotPos current_speed o).norm =
      config.max_accel * 2.0 := by
  have hviol : (0 : ℝ) ≤ obs_violation config robotPos current_speed o := by
    unfold obs_violation
    exact le_trans (by norm_num) (le_max_left 0.0 _)
  have hexp : (1 : ℝ) ≤
      Real.exp (obs_violation config robotPos current_speed o * 10.0) :=
    Real.one_le_exp (mul_nonneg hviol (by norm_num))
  have hraw : (50 : ℝ) ≤ force_mag_raw config robotPos current_speed o := by
    unfold force_mag_raw
    linarith
  have hf : force_clamped config robotPos current_speed o =
      config.max_accel * 2.0 := by
    unfold force_clamped
    split
    · rfl
    · next hle =>
        have := le_of_not_lt hle
        linarith
  refine ⟨hf, ?_⟩
  unfold obstacleRepulsion
  rw [if_pos hbranch, hf]
  exact norm_smul_normalized (by linarith) _ (obs_diff_norm_pos robotPos o)

/-- Witness for C10 at the default tuning with an obstacle exactly on the
robot: the contributed force is exactly `6 = 3.0 * 2.0`. -/
theorem C10_force_saturated_witness :
    force_clamped MPCConfig.default ⟨0, 0⟩ 0 ⟨0, 0, 0, 0, 0.1⟩ =
      MPCConfig.default.max_accel * 2.0 ∧
    (obstacleRepulsion MPCConfig.default ⟨0, 0⟩ 0 ⟨0, 0, 0, 0, 0.1⟩).norm =
      MPCConfig.default.max_accel * 2.0 :=
  C10_force_saturated MPCConfig.default ⟨0, 0⟩ 0 ⟨0, 0, 0, 0, 0.1⟩
    (by
      have hraw0 : obs_dist_raw ⟨0, 0⟩ ⟨0, 0, 0, 0, 0.1⟩ = 0 := by
        norm_num [obs_dist_raw, obs_future, Vec2.sub, Vec2.add, Vec2.smul,
          Vec2.norm, Real.sqrt_zero]
      unfold obs_dist safety_dist
      rw [hraw0]
      norm_num [MPCConfig.default])
    (by norm_num [MPCConfig.default]) (by norm_num [MPCConfig.default])

end UtamaMPC
